import Mathlib

/-!
Verification development for the AI-EXAM-SIMULATOR repository.

Each definition is a shallow embedding of a function of the source:
* `App.tsx` (warning accumulator): `handleFullscreenChange`,
  `handleProctoringViolation` and the total-warnings effect.
* `Lobby.tsx` (setup gate): `runProctoringCheck`.
* `geminiService.ts`: `analyzeStudentFrame`, `streamDetailedExaminerFeedback`.
* `WebcamProctor.tsx` (session state machine): the `turnComplete` branch of
  `connectToPatientSession.onmessage`, the `onclose` reconnection handler,
  `resetSilenceTimer` / `triggerFeedbackPhase`, and the scorecard handlers
  `handleScoreChange` / `handleSaveScores`.

JavaScript strings are modelled as Lean `String`, JS numbers used for scores
as `ℚ` (the values involved are small and exact), timer deadlines as absolute
times in milliseconds (`Nat`), and fallible asynchronous calls as `Except` /
`Option` parameters.
-/

namespace ExamSim

/-- Transcript roles, from `types.ts`. -/
inductive Role where
  | Student
  | SP
  | Examiner
deriving DecidableEq

/-- `TranscriptEntry` from `types.ts`. -/
structure TranscriptEntry where
  role : Role
  text : String
deriving DecidableEq

/-- `ProctoringResult` from `types.ts`. -/
structure ProctoringResult where
  isCheating : Bool
  reason : String
deriving DecidableEq

/-- `ScoreCategory` from `types.ts`; JS numbers modelled as `ℚ`. -/
structure ScoreCategory where
  score : ℚ
  justification : String
deriving DecidableEq

/-- `ScoreData` from `types.ts`. -/
structure ScoreData where
  rapport : ScoreCategory
  historyTaking : ScoreCategory
  communication : ScoreCategory
  overallScore : ℚ
deriving DecidableEq

/-- The exam phases of the session state machine in `WebcamProctor.tsx`. -/
inductive ExamPhase where
  | initializing
  | ready
  | inProgress
  | feedback
  | qa
  | ended
deriving DecidableEq

/-- Characters removed by JavaScript `String.prototype.trim`
(the whitespace actually occurring in this code base). -/
def isJsSpace (c : Char) : Bool :=
  c == ' ' || c == '\t' || c == '\n' || c == '\r'

/-- Model of JavaScript `.trim()`: strip leading and trailing whitespace. -/
def jsTrim (s : String) : String :=
  String.mk (((s.data.dropWhile isJsSpace).reverse.dropWhile isJsSpace).reverse)

/-! ## Warning accumulator (`App.tsx`) -/

/-- The state held by `App`: the two warning counters, the block flag and the
warning overlay message (`examStarted` guards `handleFullscreenChange`). -/
structure AppState where
  examStarted : Bool
  fullscreenWarnings : Nat
  proctoringWarnings : Nat
  isExamBlocked : Bool
  warningMessage : String
deriving DecidableEq

/-- `totalWarnings = fullscreenWarnings + proctoringWarnings` in `App.tsx`. -/
def totalWarnings (s : AppState) : Nat :=
  s.fullscreenWarnings + s.proctoringWarnings

/-- The `useEffect` of `App.tsx` that blocks the exam once
`totalWarnings >= 5 && !isExamBlocked`. It runs after every counter update,
so the step functions below apply it after each increment. -/
def checkTerminationEffect (s : AppState) : AppState :=
  if 5 ≤ totalWarnings s ∧ s.isExamBlocked = false then
    { s with isExamBlocked := true,
             warningMessage := "Exam terminated after 5 warnings." }
  else s

/-- `handleFullscreenChange` of `App.tsx`, at a `fullscreenchange` event with
`document.fullscreenElement` null (a fullscreen exit). In the blocking branch
the transient `showWarning` message is immediately overwritten by the lock
message, so only the final message of the handler is kept per branch. -/
def handleFullscreenChange (s : AppState) : AppState :=
  if s.examStarted = true ∧ s.isExamBlocked = false then
    if 2 ≤ s.fullscreenWarnings + 1 then
      checkTerminationEffect
        { s with fullscreenWarnings := s.fullscreenWarnings + 1,
                 isExamBlocked := true,
                 warningMessage := "Exam locked. You have exited fullscreen mode multiple times." }
    else
      checkTerminationEffect
        { s with fullscreenWarnings := s.fullscreenWarnings + 1,
                 warningMessage :=
                   "Fullscreen exited. Warning " ++ toString (totalWarnings s + 1) ++ " of 5." }
  else s

/-- `handleProctoringViolation` of `App.tsx`. -/
def handleProctoringViolation (reason : String) (s : AppState) : AppState :=
  if s.isExamBlocked = true then s
  else
    checkTerminationEffect
      { s with proctoringWarnings := s.proctoringWarnings + 1,
               warningMessage :=
                 "Proctoring Alert: " ++ reason ++ ". Warning " ++
                   toString (totalWarnings s + 1) ++ " of 5." }

/-- A violation event routed to the warning accumulator. -/
inductive WarnEvent where
  | fullscreenExit
  | proctoringViolation (reason : String)

/-- Dispatch one violation event to its `App.tsx` handler. -/
def warnStep (s : AppState) : WarnEvent → AppState
  | WarnEvent.fullscreenExit => handleFullscreenChange s
  | WarnEvent.proctoringViolation r => handleProctoringViolation r s

/-- The accumulator's start state: exam started, zero counters, unblocked. -/
def initialAppState : AppState :=
  { examStarted := true, fullscreenWarnings := 0, proctoringWarnings := 0,
    isExamBlocked := false, warningMessage := "" }

/-- Apply a sequence of violation events from the start state. -/
def runWarnEvents (es : List WarnEvent) : AppState :=
  es.foldl warnStep initialAppState

/-- Invariant of the warning accumulator: the exam stays started, and the
block flag holds exactly when a blocking condition has been reached. -/
def WarnInv (s : AppState) : Prop :=
  s.examStarted = true ∧
    (s.isExamBlocked = true ↔ (2 ≤ s.fullscreenWarnings ∨ 5 ≤ totalWarnings s))

lemma warnStep_blocked_eq (s : AppState) (e : WarnEvent)
    (hb : s.isExamBlocked = true) : warnStep s e = s := by
  cases e with
  | fullscreenExit =>
      simp only [warnStep, handleFullscreenChange]
      rw [if_neg]
      rintro ⟨-, h⟩
      rw [hb] at h
      exact absurd h (by decide)
  | proctoringViolation r =>
      simp only [warnStep, handleProctoringViolation]
      rw [if_pos hb]

lemma warnInv_step (s : AppState) (e : WarnEvent) (h : WarnInv s) :
    WarnInv (warnStep s e) := by
  obtain ⟨hes, hiff⟩ := h
  by_cases hb : s.isExamBlocked = true
  · rw [warnStep_blocked_eq s e hb]
    exact ⟨hes, hiff⟩
  · have hb' : s.isExamBlocked = false := by
      cases hx : s.isExamBlocked
      · rfl
      · exact absurd hx hb
    have hsmall : ¬ (2 ≤ s.fullscreenWarnings ∨ 5 ≤ totalWarnings s) := by
      intro hcond
      exact hb (hiff.mpr hcond)
    push_neg at hsmall
    obtain ⟨hf, ht⟩ := hsmall
    unfold totalWarnings at ht
    cases e with
    | fullscreenExit =>
        simp only [warnStep, handleFullscreenChange, checkTerminationEffect, totalWarnings]
        rw [if_pos ⟨hes, hb'⟩]
        split_ifs with h2 hc hc
        · exact absurd hc.2 (by simp)
        · refine ⟨hes, ?_⟩
          show true = true ↔ (2 ≤ s.fullscreenWarnings + 1 ∨
              5 ≤ s.fullscreenWarnings + 1 + s.proctoringWarnings)
          exact ⟨fun _ => Or.inl h2, fun _ => rfl⟩
        · refine ⟨hes, ?_⟩
          show true = true ↔ (2 ≤ s.fullscreenWarnings + 1 ∨
              5 ≤ s.fullscreenWarnings + 1 + s.proctoringWarnings)
          exact ⟨fun _ => Or.inr hc.1, fun _ => rfl⟩
        · refine ⟨hes, ?_⟩
          show s.isExamBlocked = true ↔ (2 ≤ s.fullscreenWarnings + 1 ∨
              5 ≤ s.fullscreenWarnings + 1 + s.proctoringWarnings)
          have h5 : ¬ 5 ≤ s.fullscreenWarnings + 1 + s.proctoringWarnings :=
            fun h => hc ⟨h, hb'⟩
          rw [hb']
          simp only [Bool.false_eq_true, false_iff]
          omega
    | proctoringViolation r =>
        simp only [warnStep, handleProctoringViolation, checkTerminationEffect, totalWarnings]
        rw [if_neg (by rw [hb']; decide)]
        split_ifs with hc
        · refine ⟨hes, ?_⟩
          show true = true ↔ (2 ≤ s.fullscreenWarnings ∨
              5 ≤ s.fullscreenWarnings + (s.proctoringWarnings + 1))
          exact ⟨fun _ => Or.inr hc.1, fun _ => rfl⟩
        · refine ⟨hes, ?_⟩
          show s.isExamBlocked = true ↔ (2 ≤ s.fullscreenWarnings ∨
              5 ≤ s.fullscreenWarnings + (s.proctoringWarnings + 1))
          have h5 : ¬ 5 ≤ s.fullscreenWarnings + (s.proctoringWarnings + 1) :=
            fun h => hc ⟨h, hb'⟩
          rw [hb']
          simp only [Bool.false_eq_true, false_iff]
          omega

lemma runWarnEvents_inv (es : List WarnEvent) : WarnInv (runWarnEvents es) := by
  have h : ∀ (l : List WarnEvent) (s : AppState), WarnInv s → WarnInv (l.foldl warnStep s) := by
    intro l
    induction l with
    | nil => intro s hs; exact hs
    | cons e t ih =>
        intro s hs
        exact ih (warnStep s e) (warnInv_step s e hs)
  exact h es initialAppState ⟨rfl, by simp [initialAppState, totalWarnings]⟩

/-- C1: for every sequence of `recordFullscreenExit` / `recordProctoringViolation`
calls applied from zero counters and unblocked, `isBlocked` holds exactly when
the fullscreen-exit count has reached 2 or the two counters sum to 5; and once
blocked, every further violation call is a no-op (both counters frozen, and the
block flag — hence — never reverts). -/
theorem c1_warning_accumulator_policy :
    (∀ es : List WarnEvent,
      (runWarnEvents es).isExamBlocked = true ↔
        (2 ≤ (runWarnEvents es).fullscreenWarnings ∨
          5 ≤ (runWarnEvents es).fullscreenWarnings + (runWarnEvents es).proctoringWarnings))
    ∧ (∀ (s : AppState) (e : WarnEvent), s.isExamBlocked = true → warnStep s e = s) := by
  constructor
  · intro es
    exact (runWarnEvents_inv es).2
  · intro s e hb
    exact warnStep_blocked_eq s e hb

/-- Witness for C1: two fullscreen exits block the exam, and a further
event on a blocked state changes nothing. -/
theorem c1_warning_accumulator_policy_witness :
    ((runWarnEvents [WarnEvent.fullscreenExit, WarnEvent.fullscreenExit]).isExamBlocked = true ↔
      (2 ≤ (runWarnEvents [WarnEvent.fullscreenExit, WarnEvent.fullscreenExit]).fullscreenWarnings ∨
        5 ≤ (runWarnEvents [WarnEvent.fullscreenExit, WarnEvent.fullscreenExit]).fullscreenWarnings +
          (runWarnEvents [WarnEvent.fullscreenExit, WarnEvent.fullscreenExit]).proctoringWarnings))
    ∧ warnStep
        { examStarted := true, fullscreenWarnings := 2, proctoringWarnings := 0,
          isExamBlocked := true, warningMessage := "x" } WarnEvent.fullscreenExit =
        { examStarted := true, fullscreenWarnings := 2, proctoringWarnings := 0,
          isExamBlocked := true, warningMessage := "x" } :=
  ⟨c1_warning_accumulator_policy.1 [WarnEvent.fullscreenExit, WarnEvent.fullscreenExit],
   c1_warning_accumulator_policy.2 _ WarnEvent.fullscreenExit rfl⟩

/-! ## Lobby pre-check (`Lobby.tsx`) -/

/-- The clean-frame test of `runProctoringCheck` in `Lobby.tsx`:
`!result.isCheating && result.reason === "All clear"`. -/
def isCleanResult (r : ProctoringResult) : Bool :=
  !r.isCheating && r.reason == "All clear"

/-- The lobby state touched by `runProctoringCheck`: the consecutive-clean
counter and the pass flag. -/
structure LobbyCheckState where
  clearChecks : Nat
  proctoringPassed : Bool
deriving DecidableEq

/-- One cycle of `runProctoringCheck` in `Lobby.tsx`, applied to the
`ProctoringResult` produced by `analyzeStudentFrame` for the captured frame:
a clean result increments `clearChecks` and sets `proctoringPassed` at 2;
anything else resets the counter to 0. -/
def runProctoringCheck (s : LobbyCheckState) (r : ProctoringResult) : LobbyCheckState :=
  if isCleanResult r then
    { clearChecks := s.clearChecks + 1,
      proctoringPassed := s.proctoringPassed || decide (2 ≤ s.clearChecks + 1) }
  else
    { s with clearChecks := 0 }

/-- The lobby's initial check state: `clearChecks = 0`, not passed. -/
def initialLobbyState : LobbyCheckState :=
  { clearChecks := 0, proctoringPassed := false }

/-- Feed a sequence of proctoring results to the lobby pre-check. -/
def runLobbyChecks (rs : List ProctoringResult) : LobbyCheckState :=
  rs.foldl runProctoringCheck initialLobbyState

/-- Whether a list of results contains two adjacent clean results. -/
def hasTwoConsecutiveClean : List ProctoringResult → Bool
  | a :: b :: t => (isCleanResult a && isCleanResult b) || hasTwoConsecutiveClean (b :: t)
  | _ => false

/-- Whether a list of results starts with a clean result. -/
def headClean : List ProctoringResult → Bool
  | [] => false
  | a :: _ => isCleanResult a

lemma foldl_runProctoringCheck_passed (rs : List ProctoringResult) :
    ∀ s : LobbyCheckState,
      (rs.foldl runProctoringCheck s).proctoringPassed =
        (s.proctoringPassed || hasTwoConsecutiveClean rs ||
          (decide (1 ≤ s.clearChecks) && headClean rs)) := by
  induction rs with
  | nil =>
      intro s
      simp [hasTwoConsecutiveClean, headClean]
  | cons r t ih =>
      intro s
      rw [List.foldl_cons, ih]
      by_cases hr : isCleanResult r = true
      · have hstep : runProctoringCheck s r =
            { clearChecks := s.clearChecks + 1,
              proctoringPassed := s.proctoringPassed || decide (2 ≤ s.clearChecks + 1) } := by
          unfold runProctoringCheck
          rw [if_pos hr]
        have h21 : decide (2 ≤ s.clearChecks + 1) = decide (1 ≤ s.clearChecks) := by
          by_cases h1 : 1 ≤ s.clearChecks
          · rw [decide_eq_true (show 2 ≤ s.clearChecks + 1 by omega), decide_eq_true h1]
          · rw [decide_eq_false (show ¬ 2 ≤ s.clearChecks + 1 by omega), decide_eq_false h1]
        have hd1 : decide (1 ≤ s.clearChecks + 1) = true :=
          decide_eq_true (by omega)
        have hpair : hasTwoConsecutiveClean (r :: t) =
            (headClean t || hasTwoConsecutiveClean t) := by
          cases t with
          | nil => rfl
          | cons b u =>
              show (isCleanResult r && isCleanResult b || _) = _
              rw [hr, Bool.true_and]
              rfl
        have hhead : headClean (r :: t) = true := hr
        simp only [hstep]
        rw [hpair, hhead, h21, hd1]
        simp only [Bool.true_and, Bool.and_true]
        cases s.proctoringPassed <;> cases decide (1 ≤ s.clearChecks) <;>
          cases headClean t <;> cases hasTwoConsecutiveClean t <;> rfl
      · have hr' : isCleanResult r = false := by
          cases hx : isCleanResult r
          · rfl
          · exact absurd hx hr
        have hstep : runProctoringCheck s r = { s with clearChecks := 0 } := by
          unfold runProctoringCheck
          rw [if_neg hr]
        have hpair : hasTwoConsecutiveClean (r :: t) = hasTwoConsecutiveClean t := by
          cases t with
          | nil => rfl
          | cons b u =>
              show (isCleanResult r && isCleanResult b || _) = _
              rw [hr', Bool.false_and, Bool.false_or]
        have hhead : headClean (r :: t) = false := hr'
        have hd0 : decide (1 ≤ (0 : Nat)) = false := by decide
        simp only [hstep]
        rw [hpair, hhead, hd0]
        simp only [Bool.false_and, Bool.and_false, Bool.or_false]

/-- C3: any result whose reason is not `"All clear"` resets the
consecutive-clean counter to 0 and does not change the pass flag; from the
initial state the gate signals "setup passed" exactly when the result
sequence contains 2 consecutive clean results; in particular
clean, non-clean, clean does not pass. -/
theorem c3_lobby_consecutive_clean :
    (∀ (s : LobbyCheckState) (r : ProctoringResult), r.reason ≠ "All clear" →
      (runProctoringCheck s r).clearChecks = 0 ∧
        (runProctoringCheck s r).proctoringPassed = s.proctoringPassed)
    ∧ (∀ rs : List ProctoringResult,
        (runLobbyChecks rs).proctoringPassed = hasTwoConsecutiveClean rs)
    ∧ (runLobbyChecks
        [{ isCheating := false, reason := "All clear" },
         { isCheating := true, reason := "Possible use of a mobile phone detected." },
         { isCheating := false, reason := "All clear" }]).proctoringPassed = false := by
  refine ⟨?_, ?_, by decide⟩
  · intro s r hne
    have hr : isCleanResult r = false := by
      unfold isCleanResult
      have : (r.reason == "All clear") = false := by
        exact beq_eq_false_iff_ne.mpr hne
      rw [this, Bool.and_false]
    unfold runProctoringCheck
    rw [if_neg (by rw [hr]; exact fun h => absurd h (by decide))]
    exact ⟨rfl, rfl⟩
  · intro rs
    unfold runLobbyChecks
    rw [foldl_runProctoringCheck_passed rs initialLobbyState]
    simp [initialLobbyState]

/-- Witness for C3: a dirty result resets a counter of 1 without passing. -/
theorem c3_lobby_consecutive_clean_witness :
    (runProctoringCheck { clearChecks := 1, proctoringPassed := false }
      { isCheating := true, reason := "Student not present in the frame." }).clearChecks = 0 ∧
    (runProctoringCheck { clearChecks := 1, proctoringPassed := false }
      { isCheating := true, reason := "Student not present in the frame." }).proctoringPassed = false :=
  c3_lobby_consecutive_clean.1
    { clearChecks := 1, proctoringPassed := false }
    { isCheating := true, reason := "Student not present in the frame." }
    (by decide)

/-! ## Frame classification (`geminiService.ts`, `analyzeStudentFrame`) -/

/-- The fail-open reason string of `analyzeStudentFrame`. -/
def analysisFailedMsg : String := "AI analysis failed. Check console for details."

/-- `analyzeStudentFrame` of `geminiService.ts`. The backend call
(`ai.models.generateContent`) is modelled as `call : Except String String`
(the raw `response.text` or a thrown error), and `JSON.parse` of the trimmed
response as `parse`. The surrounding `try/catch` turns any error of either
stage into the non-cheating fail-open result. -/
def analyzeStudentFrame (call : Except String String)
    (parse : String → Except String ProctoringResult) : ProctoringResult :=
  match (match call with
         | Except.ok responseText => parse (jsTrim responseText)
         | Except.error e => Except.error e) with
  | Except.ok r => r
  | Except.error _ => { isCheating := false, reason := analysisFailedMsg }

/-- C7: `analyzeStudentFrame` never propagates an error: if the backend call
throws, or the response fails to parse, it returns a result with
`isCheating = false` and the explanatory fail-open reason string. -/
theorem c7_analyze_frame_fail_open :
    (∀ (e : String) (parse : String → Except String ProctoringResult),
      analyzeStudentFrame (Except.error e) parse =
        { isCheating := false, reason := analysisFailedMsg })
    ∧ (∀ (t : String) (parse : String → Except String ProctoringResult) (e : String),
        parse (jsTrim t) = Except.error e →
          analyzeStudentFrame (Except.ok t) parse =
            { isCheating := false, reason := analysisFailedMsg }) := by
  constructor
  · intro e parse
    rfl
  · intro t parse e hp
    unfold analyzeStudentFrame
    show (match parse (jsTrim t) with
          | Except.ok r => r
          | Except.error _ => { isCheating := false, reason := analysisFailedMsg }) =
        { isCheating := false, reason := analysisFailedMsg }
    rw [hp]

/-- Witness for C7: a concrete parse failure yields the fail-open result. -/
theorem c7_analyze_frame_fail_open_witness :
    analyzeStudentFrame (Except.ok "not json") (fun _ => Except.error "SyntaxError") =
      { isCheating := false, reason := analysisFailedMsg } :=
  c7_analyze_frame_fail_open.2 "not json" (fun _ => Except.error "SyntaxError")
    "SyntaxError" rfl

/-! ## Turn completion (`WebcamProctor.tsx`, `connectToPatientSession.onmessage`) -/

/-- The per-turn state touched by the `turnComplete` branch of
`connectToPatientSession.onmessage`: the finalized transcript, the two
partial buffers, and the "could not hear you clearly" flag. -/
structure TurnState where
  transcripts : List TranscriptEntry
  currentInput : String
  currentOutput : String
  unclearAudioWarning : Bool
deriving DecidableEq

/-- The `turnComplete` branch of `connectToPatientSession.onmessage` in
`WebcamProctor.tsx`: trim both partial buffers, append the non-empty sides
in the order Student then SP, raise the unclear-audio notice when both trim
to empty while the raw student input was non-empty, and reset both buffers. -/
def handleTurnComplete (s : TurnState) : TurnState :=
  { transcripts := s.transcripts ++
      ((if jsTrim s.currentInput = "" then []
        else [{ role := Role.Student, text := jsTrim s.currentInput }]) ++
       (if jsTrim s.currentOutput = "" then []
        else [{ role := Role.SP, text := jsTrim s.currentOutput }])),
    currentInput := "",
    currentOutput := "",
    unclearAudioWarning :=
      if jsTrim s.currentInput = "" ∧ jsTrim s.currentOutput = "" ∧ s.currentInput ≠ "" then
        true
      else s.unclearAudioWarning }

/-- C5: a turn completing with partial student text `"Hello"` and partial
patient text `"Hi there"` appends exactly the two entries
Student:`"Hello"` then SP:`"Hi there"` and empties both partial buffers;
and in general the number of appended entries is exactly the number of sides
whose trimmed text is non-empty (an empty-trimmed side is never appended). -/
theorem c5_turn_complete_append :
    (∀ ts : List TranscriptEntry,
      handleTurnComplete
          { transcripts := ts, currentInput := "Hello", currentOutput := "Hi there",
            unclearAudioWarning := false } =
        { transcripts := ts ++
            [{ role := Role.Student, text := "Hello" }, { role := Role.SP, text := "Hi there" }],
          currentInput := "", currentOutput := "", unclearAudioWarning := false })
    ∧ (∀ s : TurnState,
        (handleTurnComplete s).transcripts.length = s.transcripts.length +
          ((if jsTrim s.currentInput = "" then 0 else 1) +
           (if jsTrim s.currentOutput = "" then 0 else 1))) := by
  constructor
  · intro ts
    unfold handleTurnComplete
    have h1 : jsTrim "Hello" = "Hello" := by decide
    have h2 : jsTrim "Hi there" = "Hi there" := by decide
    rw [h1, h2]
    simp
  · intro s
    unfold handleTurnComplete
    simp only [List.length_append]
    by_cases hin : jsTrim s.currentInput = "" <;>
      by_cases hout : jsTrim s.currentOutput = "" <;>
        simp [hin, hout]

/-! ## Scorecard editor (`WebcamProctor.tsx`) -/

/-- The three editable score categories (`keyof Omit<ScoreData, 'overallScore'>`). -/
inductive ScoreCategoryKey where
  | rapport
  | historyTaking
  | communication
deriving DecidableEq

/-- Read the score of one category. -/
def getCategoryScore (d : ScoreData) : ScoreCategoryKey → ℚ
  | ScoreCategoryKey.rapport => d.rapport.score
  | ScoreCategoryKey.historyTaking => d.historyTaking.score
  | ScoreCategoryKey.communication => d.communication.score

/-- The update applied by `handleScoreChange` in `WebcamProctor.tsx` to a
present draft: set the chosen category's score to `newScore` (verbatim) and
recompute `overallScore` as the sum of the three scores divided by 3. -/
def applyScoreChange (category : ScoreCategoryKey) (newScore : ℚ) (d : ScoreData) : ScoreData :=
  match category with
  | ScoreCategoryKey.rapport =>
      { d with rapport := { d.rapport with score := newScore },
               overallScore := (newScore + d.historyTaking.score + d.communication.score) / 3 }
  | ScoreCategoryKey.historyTaking =>
      { d with historyTaking := { d.historyTaking with score := newScore },
               overallScore := (d.rapport.score + newScore + d.communication.score) / 3 }
  | ScoreCategoryKey.communication =>
      { d with communication := { d.communication with score := newScore },
               overallScore := (d.rapport.score + d.historyTaking.score + newScore) / 3 }

/-- `handleScoreChange` in `WebcamProctor.tsx`: its `setEditedScoreData`
updater returns `null` for an absent draft and the recomputed draft
otherwise. -/
def handleScoreChange (category : ScoreCategoryKey) (newScore : ℚ) :
    Option ScoreData → Option ScoreData
  | none => none
  | some d => some (applyScoreChange category newScore d)

/-- `handleSaveScores` in `WebcamProctor.tsx`: commit the draft (when
present) to the canonical `scoreData`, stop editing, and discard the draft.
Result: (new `scoreData`, new `isEditingScores`, new `editedScoreData`). -/
def handleSaveScores (scoreData editedScoreData : Option ScoreData) :
    Option ScoreData × Bool × Option ScoreData :=
  ((match editedScoreData with
    | some d => some d
    | none => scoreData), false, none)

/-- The spec's rounding: a rational rounded to one decimal place. -/
def round1 (q : ℚ) : ℚ :=
  ((Int.floor (q * 10 + 1 / 2) : ℤ) : ℚ) / 10

/-- A concrete AI-produced scorecard used as a starting point. -/
def sampleScoreData : ScoreData :=
  { rapport := { score := 1, justification := "a" },
    historyTaking := { score := 1, justification := "b" },
    communication := { score := 1, justification := "c" },
    overallScore := 1 }

/-- Counterexample to C2: after `changeCategoryScore(communication, 2)` the
draft's `overallScore` is the exact mean 4/3, not the one-decimal rounding
13/10 of the mean — the code never rounds. -/
theorem c2_overall_score_rounded_counterexample :
    (applyScoreChange ScoreCategoryKey.communication 2 sampleScoreData).overallScore ≠
      round1 (((applyScoreChange ScoreCategoryKey.communication 2 sampleScoreData).rapport.score +
        (applyScoreChange ScoreCategoryKey.communication 2 sampleScoreData).historyTaking.score +
        (applyScoreChange ScoreCategoryKey.communication 2 sampleScoreData).communication.score) / 3) := by
  intro h
  have h1 : (applyScoreChange ScoreCategoryKey.communication 2 sampleScoreData).overallScore
      = 4 / 3 := by
    show ((1 : ℚ) + 1 + 2) / 3 = 4 / 3
    norm_num
  have h2 : round1 (((applyScoreChange ScoreCategoryKey.communication 2 sampleScoreData).rapport.score +
      (applyScoreChange ScoreCategoryKey.communication 2 sampleScoreData).historyTaking.score +
      (applyScoreChange ScoreCategoryKey.communication 2 sampleScoreData).communication.score) / 3)
      = 13 / 10 := by
    show round1 (((1 : ℚ) + 1 + 2) / 3) = 13 / 10
    unfold round1
    rw [show ((1 : ℚ) + 1 + 2) / 3 * 10 + 1 / 2 = 83 / 6 by norm_num]
    rw [show Int.floor ((83 : ℚ) / 6) = 13 from Int.floor_eq_iff.mpr (by norm_num)]
    norm_num
  rw [h1, h2] at h
  norm_num at h

/-- C2 (amended): after every `changeCategoryScore` the draft's
`overallScore` equals the exact (unrounded) arithmetic mean of the three
category scores, and `commit` copies the draft verbatim into the canonical
`ScoreData` (so the relation persists post-commit); the initially stored
`ScoreData` is whatever the backend produced, unchecked. -/
theorem c2_overall_score_exact_mean :
    (∀ (category : ScoreCategoryKey) (newScore : ℚ) (d : ScoreData),
      (applyScoreChange category newScore d).overallScore =
        ((applyScoreChange category newScore d).rapport.score +
         (applyScoreChange category newScore d).historyTaking.score +
         (applyScoreChange category newScore d).communication.score) / 3)
    ∧ (∀ (scoreData : Option ScoreData) (d : ScoreData),
        handleSaveScores scoreData (some d) = (some d, false, none)) := by
  constructor
  · intro category newScore d
    cases category <;> rfl
  · intro scoreData d
    rfl

/-- Counterexample to C9: `changeCategoryScore(rapport, 7)` stores 7,
which is outside 1..5 — nothing clamps the argument. -/
theorem c9_clamping_counterexample :
    getCategoryScore (applyScoreChange ScoreCategoryKey.rapport 7 sampleScoreData)
        ScoreCategoryKey.rapport = 7 ∧
      ¬ getCategoryScore (applyScoreChange ScoreCategoryKey.rapport 7 sampleScoreData)
          ScoreCategoryKey.rapport ≤ 5 := by
  constructor
  · rfl
  · intro h
    rw [show getCategoryScore (applyScoreChange ScoreCategoryKey.rapport 7 sampleScoreData)
        ScoreCategoryKey.rapport = 7 from rfl] at h
    norm_num at h

/-- C9 (amended): `changeCategoryScore(category, newScore)` stores the
`newScore` argument verbatim in the chosen category — no clamping and no
integrality check is applied (the star-widget call sites only ever pass the
integers 1..5). -/
theorem c9_score_stored_verbatim :
    ∀ (category : ScoreCategoryKey) (newScore : ℚ) (d : ScoreData),
      getCategoryScore (applyScoreChange category newScore d) category = newScore := by
  intro category newScore d
  cases category <;> rfl

/-! ## Patient-channel reconnection (`WebcamProctor.tsx`, `connectToPatientSession.onclose`) -/

/-- Outcome of one `onclose` callback of the patient session. -/
inductive CloseOutcome where
  | retry (delayMs : Nat)
  | terminalFailure
  | sessionClosed
deriving DecidableEq

/-- The status message set by each `onclose` branch. -/
def closeStatus : CloseOutcome → String
  | CloseOutcome.retry _ => "Connection closed. Reconnecting..."
  | CloseOutcome.terminalFailure => "Connection failed permanently. Please refresh."
  | CloseOutcome.sessionClosed => "Patient session closed."

/-- The `onclose` handler of `connectToPatientSession`: while `in-progress`,
if fewer than 5 reconnection attempts have been made, schedule a reconnect
after `2000 * reconnectionAttemptRef.current` ms (the counter is read before
being incremented) and increment the counter; otherwise report the terminal
failure. Outside `in-progress` the close is benign. Returns the outcome and
the new attempt counter. -/
def handlePatientClose (phase : ExamPhase) (attempt : Nat) : CloseOutcome × Nat :=
  if phase = ExamPhase.inProgress then
    if attempt < 5 then (CloseOutcome.retry (2000 * attempt), attempt + 1)
    else (CloseOutcome.terminalFailure, attempt)
  else (CloseOutcome.sessionClosed, attempt)

/-- The attempt counter after `n` consecutive unexpected closes while
`in-progress`, starting from 0 (the value set by `onopen`). -/
def attemptAfterCloses : Nat → Nat
  | 0 => 0
  | n + 1 => (handlePatientClose ExamPhase.inProgress (attemptAfterCloses n)).2

/-- Outcome of the `n`-th consecutive close (`n ≥ 1`) while `in-progress`. -/
def nthCloseOutcome (n : Nat) : CloseOutcome :=
  (handlePatientClose ExamPhase.inProgress (attemptAfterCloses (n - 1))).1

lemma attemptAfterCloses_eq (n : Nat) : attemptAfterCloses n = min n 5 := by
  induction n with
  | zero => rfl
  | succ m ih =>
      show (handlePatientClose ExamPhase.inProgress (attemptAfterCloses m)).2 = min (m + 1) 5
      rw [ih]
      unfold handlePatientClose
      rw [if_pos rfl]
      by_cases h : min m 5 < 5
      · rw [if_pos h]
        show min m 5 + 1 = min (m + 1) 5
        omega
      · rw [if_neg h]
        show min m 5 = min (m + 1) 5
        omega

/-- Counterexample to C4: the first close retries after `2000 * 0 = 0` ms,
not `2000 * 1` ms — the delay is computed from the pre-increment counter. -/
theorem c4_backoff_counterexample :
    nthCloseOutcome 1 = CloseOutcome.retry 0 ∧
      CloseOutcome.retry 0 ≠ CloseOutcome.retry (2000 * 1) := by
  exact ⟨rfl, by decide⟩

/-- C4 (amended): reconnection is attempted at most 5 times; the `n`-th
consecutive close (1 ≤ n ≤ 5) retries after `2000 × (n − 1)` ms (so the
first retry is immediate), and the sixth close yields the terminal failure
message instead of another retry. -/
theorem c4_reconnection_backoff :
    (∀ n : Nat, 1 ≤ n → n ≤ 5 →
      nthCloseOutcome n = CloseOutcome.retry (2000 * (n - 1)))
    ∧ nthCloseOutcome 6 = CloseOutcome.terminalFailure
    ∧ closeStatus CloseOutcome.terminalFailure = "Connection failed permanently. Please refresh."
    ∧ (∀ n : Nat, attemptAfterCloses n ≤ 5) := by
  refine ⟨?_, by decide, rfl, ?_⟩
  · intro n h1 h5
    unfold nthCloseOutcome
    rw [attemptAfterCloses_eq]
    rw [show min (n - 1) 5 = n - 1 by omega]
    unfold handlePatientClose
    rw [if_pos rfl, if_pos (by omega)]
  · intro n
    rw [attemptAfterCloses_eq]
    omega

/-- Witness for C4 (amended): the second close waits 2000 ms; the sixth is
terminal. -/
theorem c4_reconnection_backoff_witness :
    nthCloseOutcome 2 = CloseOutcome.retry 2000 ∧
      nthCloseOutcome 6 = CloseOutcome.terminalFailure :=
  ⟨c4_reconnection_backoff.1 2 (by decide) (by decide), c4_reconnection_backoff.2.1⟩

/-! ## Silence watchdog (`WebcamProctor.tsx`, `resetSilenceTimer` / `triggerFeedbackPhase`) -/

/-- The state touched by the silence watchdog: the exam phase, the two
pending timers (absolute fire times in ms, `none` when cancelled) and the
"ending soon" indicator. -/
structure WatchdogState where
  phase : ExamPhase
  warningTimer : Option Nat
  silenceTimer : Option Nat
  silenceWarningVisible : Bool
deriving DecidableEq

/-- The phase-transition head of `triggerFeedbackPhase` in
`WebcamProctor.tsx`: a no-op unless the phase is still `in-progress`;
otherwise cancel both timers, clear the indicator and move to `feedback`
(the feedback-streaming body of the function is modelled separately below). -/
def triggerFeedbackTransition (s : WatchdogState) : WatchdogState :=
  if s.phase = ExamPhase.inProgress then
    { phase := ExamPhase.feedback, warningTimer := none, silenceTimer := none,
      silenceWarningVisible := false }
  else s

/-- `resetSilenceTimer` in `WebcamProctor.tsx`, called at time `now`: cancel
both pending timers and clear the indicator, then, if the phase is
`in-progress`, arm the warning timer at `now + 15000` and the silence timer
at `now + 20000`. -/
def resetSilenceTimer (now : Nat) (s : WatchdogState) : WatchdogState :=
  if s.phase = ExamPhase.inProgress then
    { s with warningTimer := some (now + 15000), silenceTimer := some (now + 20000),
             silenceWarningVisible := false }
  else
    { s with warningTimer := none, silenceTimer := none, silenceWarningVisible := false }

/-- The warning-timer callback: show the "ending soon" indicator
(the elapsed one-shot timer is gone). -/
def fireWarningTimer (s : WatchdogState) : WatchdogState :=
  { s with silenceWarningVisible := true, warningTimer := none }

/-- The silence-timer callback: hide the indicator and call
`triggerFeedbackPhase` (the elapsed one-shot timer is gone). -/
def fireSilenceTimer (s : WatchdogState) : WatchdogState :=
  triggerFeedbackTransition { s with silenceTimer := none, silenceWarningVisible := false }

/-- Run the warning timer's callback if it is due at time `t`. -/
def advanceWarning (s : WatchdogState) (t : Nat) : WatchdogState :=
  match s.warningTimer with
  | some ft => if ft ≤ t then fireWarningTimer s else s
  | none => s

/-- Run the silence timer's callback if it is due at time `t`. -/
def advanceSilence (s : WatchdogState) (t : Nat) : WatchdogState :=
  match s.silenceTimer with
  | some ft => if ft ≤ t then fireSilenceTimer s else s
  | none => s

/-- Let time advance to `t`, firing due timers in their scheduled order
(the warning deadline always precedes the silence deadline). -/
def advanceTo (s : WatchdogState) (t : Nat) : WatchdogState :=
  advanceSilence (advanceWarning s t) t

/-- The watchdog armed at time 0 in phase `in-progress`. -/
def armedAtZero : WatchdogState :=
  resetSilenceTimer 0
    { phase := ExamPhase.inProgress, warningTimer := none, silenceTimer := none,
      silenceWarningVisible := false }

lemma armedAtZero_eq :
    armedAtZero =
      { phase := ExamPhase.inProgress, warningTimer := some 15000,
        silenceTimer := some 20000, silenceWarningVisible := false } := rfl

lemma advanceTo_armed_early (t : Nat) (ht : t < 15000) :
    advanceTo armedAtZero t = armedAtZero := by
  unfold advanceTo
  have hw : advanceWarning armedAtZero t = armedAtZero := by
    rw [armedAtZero_eq]
    show (if 15000 ≤ t then _ else _) = _
    rw [if_neg (by omega)]
  rw [hw, armedAtZero_eq]
  show (if 20000 ≤ t then _ else _) = _
  rw [if_neg (by omega)]

/-- C8: arming the watchdog in `in-progress` at time `now` schedules the
indicator at `now + 15000` and the forced transition at `now + 20000`;
with no activity the indicator shows at 15 s (phase unchanged) and the
phase forces to `feedback` at 20 s with the indicator cleared, and advancing
further changes nothing more (the transition fires at most once —
`triggerFeedbackPhase` is a no-op outside `in-progress`); re-arming always
clears the indicator and never changes the phase, so a turn completing
within 15 s leaves the indicator hidden and the phase `in-progress`. -/
theorem c8_silence_watchdog :
    (∀ (s : WatchdogState) (now : Nat), s.phase = ExamPhase.inProgress →
      (resetSilenceTimer now s).warningTimer = some (now + 15000) ∧
        (resetSilenceTimer now s).silenceTimer = some (now + 20000))
    ∧ (∀ (s : WatchdogState) (now : Nat),
        (resetSilenceTimer now s).silenceWarningVisible = false ∧
          (resetSilenceTimer now s).phase = s.phase)
    ∧ (∀ s : WatchdogState,
        triggerFeedbackTransition (triggerFeedbackTransition s) = triggerFeedbackTransition s)
    ∧ ((advanceTo armedAtZero 15000).silenceWarningVisible = true ∧
        (advanceTo armedAtZero 15000).phase = ExamPhase.inProgress)
    ∧ ((advanceTo armedAtZero 20000).phase = ExamPhase.feedback ∧
        (advanceTo armedAtZero 20000).silenceWarningVisible = false ∧
        advanceTo (advanceTo armedAtZero 20000) 30000 = advanceTo armedAtZero 20000)
    ∧ (∀ t : Nat, t < 15000 →
        (resetSilenceTimer t (advanceTo armedAtZero t)).silenceWarningVisible = false ∧
          (resetSilenceTimer t (advanceTo armedAtZero t)).phase = ExamPhase.inProgress ∧
          (advanceTo armedAtZero t).silenceWarningVisible = false) := by
  refine ⟨?_, ?_, ?_, by decide, by decide, ?_⟩
  · intro s now h
    unfold resetSilenceTimer
    rw [if_pos h]
    exact ⟨rfl, rfl⟩
  · intro s now
    unfold resetSilenceTimer
    by_cases h : s.phase = ExamPhase.inProgress
    · rw [if_pos h]
      exact ⟨rfl, rfl⟩
    · rw [if_neg h]
      exact ⟨rfl, rfl⟩
  · intro s
    by_cases h : s.phase = ExamPhase.inProgress
    · have h1 : triggerFeedbackTransition s =
          { phase := ExamPhase.feedback, warningTimer := none, silenceTimer := none,
            silenceWarningVisible := false } := by
        unfold triggerFeedbackTransition
        rw [if_pos h]
      rw [h1]
      decide
    · have h1 : triggerFeedbackTransition s = s := by
        unfold triggerFeedbackTransition
        rw [if_neg h]
      rw [h1]
      exact h1
  · intro t ht
    rw [advanceTo_armed_early t ht]
    refine ⟨?_, ?_, by rw [armedAtZero_eq]⟩
    · rw [armedAtZero_eq]
      show (resetSilenceTimer t _).silenceWarningVisible = false
      unfold resetSilenceTimer
      rw [if_pos rfl]
    · rw [armedAtZero_eq]
      unfold resetSilenceTimer
      rw [if_pos rfl]

/-- Witness for C8: concrete instances of the hypothesized parts — arming at
time 100 schedules 15100/20100, and a turn completing at 10 s leaves the
indicator hidden and the phase `in-progress`. -/
theorem c8_silence_watchdog_witness :
    ((resetSilenceTimer 100 armedAtZero).warningTimer = some (100 + 15000) ∧
      (resetSilenceTimer 100 armedAtZero).silenceTimer = some (100 + 20000))
    ∧ ((resetSilenceTimer 10000 (advanceTo armedAtZero 10000)).silenceWarningVisible = false ∧
        (resetSilenceTimer 10000 (advanceTo armedAtZero 10000)).phase = ExamPhase.inProgress ∧
        (advanceTo armedAtZero 10000).silenceWarningVisible = false) :=
  ⟨c8_silence_watchdog.1 armedAtZero 100 rfl,
   c8_silence_watchdog.2.2.2.2.2 10000 (by omega)⟩

/-! ## Examiner feedback streaming (`geminiService.ts`, `streamDetailedExaminerFeedback`,
and `WebcamProctor.tsx`, `triggerFeedbackPhase`) -/

/-- The `SCORE_JSON_START` delimiter of the embedded score block. -/
def scoreStartTag : String := "SCORE_JSON_START"

/-- The `SCORE_JSON_END` delimiter of the embedded score block. -/
def scoreEndTag : String := "SCORE_JSON_END"

/-- Split a character list at the first occurrence of `pat`: `none` when
`pat` does not occur, otherwise the part before the first occurrence and the
part after it (models JS `includes` / `split(tag)[0]` / the lazy regex). -/
def splitAtFirst (pat : List Char) : List Char → Option (List Char × List Char)
  | [] => none
  | c :: rest =>
    if pat.isPrefixOf (c :: rest) then some ([], (c :: rest).drop pat.length)
    else
      match splitAtFirst pat rest with
      | some (pre, post) => some (c :: pre, post)
      | none => none

/-- The part of `s` before the first occurrence of `tag`, when `tag` occurs. -/
def textBeforeFirst (tag s : String) : Option String :=
  (splitAtFirst tag.data s.data).map (fun p => String.mk p.1)

/-- The part of `s` after the first occurrence of `tag`, when `tag` occurs. -/
def textAfterFirst (tag s : String) : Option String :=
  (splitAtFirst tag.data s.data).map (fun p => String.mk p.2)

/-- The regex `SCORE_JSON_START([\s\S]*?)SCORE_JSON_END` of
`streamDetailedExaminerFeedback`: the (trimmed) text between the first start
tag and the first end tag after it. -/
def extractScoreJsonBlock (s : String) : Option String :=
  match textAfterFirst scoreStartTag s with
  | none => none
  | some after =>
      match textBeforeFirst scoreEndTag after with
      | none => none
      | some inner => some (jsTrim inner)

/-- The accumulator of the `for await` loop of
`streamDetailedExaminerFeedback`: the full response so far, the feedback
part exposed so far, and the list of `onChunk` calls made so far. -/
structure StreamFoldState where
  fullResponseText : String
  feedbackSoFar : String
  emitted : List String
deriving DecidableEq

/-- One iteration of the `for await` loop of
`streamDetailedExaminerFeedback` on a chunk with text `text` (a falsy/empty
chunk text is skipped): once the accumulated response contains the score
start tag, only the not-yet-emitted part of the text before the tag is
passed to `onChunk`; otherwise the chunk is forwarded as is. -/
def streamChunkStep (st : StreamFoldState) (text : String) : StreamFoldState :=
  if text = "" then st
  else
    match splitAtFirst scoreStartTag.data (st.fullResponseText ++ text).data with
    | some (pre, _) =>
        { fullResponseText := st.fullResponseText ++ text,
          feedbackSoFar := String.mk pre,
          emitted := st.emitted ++
            (if String.mk (pre.drop st.feedbackSoFar.data.length) = "" then []
             else [String.mk (pre.drop st.feedbackSoFar.data.length)]) }
    | none =>
        { fullResponseText := st.fullResponseText ++ text,
          feedbackSoFar := st.feedbackSoFar ++ text,
          emitted := st.emitted ++ [text] }

/-- The fixed too-brief message of `streamDetailedExaminerFeedback`. -/
def tooBriefMsg : String := "The interaction was too brief to provide detailed feedback."

/-- The catch-branch message of `streamDetailedExaminerFeedback`. -/
def feedbackErrorMsg : String := "Could not retrieve detailed examiner feedback due to an error."

/-- The observable outcome of `streamDetailedExaminerFeedback`: the
sequence of `onChunk` calls, the returned `feedbackText` and `scoreData`,
and whether the backend (`ai.models.generateContentStream`) was contacted. -/
structure FeedbackOutcome where
  emitted : List String
  feedbackText : String
  scoreData : Option ScoreData
  contactedBackend : Bool
deriving DecidableEq

/-- `streamDetailedExaminerFeedback` of `geminiService.ts`. The backend
stream is modelled as `stream : Except String (List String)` (a thrown error
or the list of chunk texts) and `JSON.parse` of the extracted score block as
`parseScore`. A transcript with fewer than 2 entries short-circuits before
the backend is contacted. -/
def streamDetailedExaminerFeedback (transcript : List TranscriptEntry)
    (stream : Except String (List String))
    (parseScore : String → Option ScoreData) : FeedbackOutcome :=
  if transcript.length < 2 then
    { emitted := [tooBriefMsg], feedbackText := tooBriefMsg, scoreData := none,
      contactedBackend := false }
  else
    match stream with
    | Except.error _ =>
        { emitted := [feedbackErrorMsg], feedbackText := feedbackErrorMsg, scoreData := none,
          contactedBackend := true }
    | Except.ok chunks =>
        let fin := chunks.foldl streamChunkStep
          { fullResponseText := "", feedbackSoFar := "", emitted := [] }
        { emitted := fin.emitted,
          feedbackText := jsTrim fin.feedbackSoFar,
          scoreData :=
            match extractScoreJsonBlock fin.fullResponseText with
            | some inner => parseScore inner
            | none => none,
          contactedBackend := true }

/-- C10: for every transcript with fewer than 2 entries,
`streamDetailedExaminerFeedback` never contacts the backend, invokes the
chunk callback exactly once with the fixed too-brief text, and returns that
text with `scoreData = null` — for every stream and every parser. -/
theorem c10_short_transcript_no_backend :
    ∀ (transcript : List TranscriptEntry) (stream : Except String (List String))
      (parseScore : String → Option ScoreData),
      transcript.length < 2 →
        streamDetailedExaminerFeedback transcript stream parseScore =
          { emitted := [tooBriefMsg], feedbackText := tooBriefMsg, scoreData := none,
            contactedBackend := false } := by
  intro transcript stream parseScore h
  unfold streamDetailedExaminerFeedback
  rw [if_pos h]

/-- Witness for C10: the empty transcript short-circuits even when a stream
and parser are available. -/
theorem c10_short_transcript_no_backend_witness :
    streamDetailedExaminerFeedback []
        (Except.ok ["Great job. ", "SCORE_JSON_STARTxSCORE_JSON_END"]) (fun _ => none) =
      { emitted := [tooBriefMsg], feedbackText := tooBriefMsg, scoreData := none,
        contactedBackend := false } :=
  c10_short_transcript_no_backend []
    (Except.ok ["Great job. ", "SCORE_JSON_STARTxSCORE_JSON_END"]) (fun _ => none)
    (by decide)

/-! The feedback phase of `WebcamProctor.tsx` (`triggerFeedbackPhase`),
after its phase guard and teardown (modelled above as
`triggerFeedbackTransition`): append the Examiner placeholder, drive
`streamDetailedExaminerFeedback` with `onChunkReceived`, then overwrite the
placeholder with the final feedback text and flush the trailing speech
fragment. The `transcriptsRef` passed to the service still holds the
pre-placeholder transcript, since React commits the appended placeholder
only after this synchronous code has run. -/

/-- The local state threaded through `onChunkReceived`. -/
structure FeedbackPhaseState where
  fullFeedbackText : String
  transcripts : List TranscriptEntry
  textBuffer : String
  speechQueue : List String
deriving DecidableEq

/-- The transcript update of `onChunkReceived` / the post-stream update:
when the last entry exists and is an Examiner entry, rewrite its text in
place; otherwise leave the list unchanged. -/
def updateLastExaminerEntry (ts : List TranscriptEntry) (txt : String) : List TranscriptEntry :=
  match ts.getLast? with
  | some e =>
      if e.role = Role.Examiner then ts.dropLast ++ [{ role := Role.Examiner, text := txt }]
      else ts
  | none => ts

/-- The sentence-terminator test of `processTextForSpeech`. -/
def isSentencePunct (c : Char) : Bool :=
  c == '.' || c == '?' || c == '!' || c == '\n'

/-- The splitting loop of `processTextForSpeech`: cut the buffer at every
terminator (each terminated fragment keeps its terminator and any leading
whitespace), returning the fragments in order and the unterminated rest. -/
def scanSentences : List Char → List Char → List String → List String × List Char
  | [], cur, done => (done, cur)
  | c :: rest, cur, done =>
      if isSentencePunct c then scanSentences rest [] (done ++ [String.mk (cur ++ [c])])
      else scanSentences rest (cur ++ [c]) done

/-- `playQueuedAudio` of `triggerFeedbackPhase`: skip blank text, call
`textToSpeech` (modelled as `tts`), and on success chain a playback promise
onto the queue — modelled as appending the spoken text to the ordered queue
(`tts` failure queues nothing). -/
def playQueuedAudio (tts : String → Option String) (queue : List String)
    (textToSpeak : String) : List String :=
  if jsTrim textToSpeak = "" then queue
  else
    match tts textToSpeak with
    | some _ => queue ++ [textToSpeak]
    | none => queue

/-- `processTextForSpeech` of `triggerFeedbackPhase`: queue every terminated
fragment of the buffer, and on the last chunk also flush a non-blank
unterminated rest. Returns the new buffer and queue. -/
def processTextForSpeech (tts : String → Option String) (buffer : String)
    (queue : List String) (isLastChunk : Bool) : String × List String :=
  match scanSentences buffer.data [] [] with
  | (sentences, rem) =>
      if isLastChunk = true ∧ jsTrim (String.mk rem) ≠ "" then
        ("", playQueuedAudio tts (sentences.foldl (playQueuedAudio tts) queue) (String.mk rem))
      else (String.mk rem, sentences.foldl (playQueuedAudio tts) queue)

/-- `onChunkReceived` of `triggerFeedbackPhase`: extend the running feedback
text, rewrite the Examiner placeholder in place, and feed the speech
splitter. -/
def onChunkReceived (tts : String → Option String) (st : FeedbackPhaseState)
    (textChunk : String) : FeedbackPhaseState :=
  match processTextForSpeech tts (st.textBuffer ++ textChunk) st.speechQueue false with
  | (buf, q) =>
      { fullFeedbackText := st.fullFeedbackText ++ textChunk,
        transcripts := updateLastExaminerEntry st.transcripts (st.fullFeedbackText ++ textChunk),
        textBuffer := buf,
        speechQueue := q }

/-- The observable outcome of the feedback phase: the transcript, the final
`examinerFeedback` value, the stored score and the ordered speech queue. -/
structure FeedbackPhaseResult where
  transcripts : List TranscriptEntry
  examinerFeedback : String
  scoreData : Option ScoreData
  speechQueue : List String
deriving DecidableEq

/-- The feedback-streaming body of `triggerFeedbackPhase` in
`WebcamProctor.tsx` (run once the phase guard has passed), over the
transcript `prev` accumulated in the patient phase. -/
def triggerFeedbackPhase (tts : String → Option String)
    (parseScore : String → Option ScoreData) (prev : List TranscriptEntry)
    (stream : Except String (List String)) : FeedbackPhaseResult :=
  let svc := streamDetailedExaminerFeedback prev stream parseScore
  let st1 := svc.emitted.foldl (onChunkReceived tts)
    { fullFeedbackText := "",
      transcripts := prev ++ [{ role := Role.Examiner, text := "..." }],
      textBuffer := "", speechQueue := [] }
  match processTextForSpeech tts st1.textBuffer st1.speechQueue true with
  | (_, q2) =>
      { transcripts := updateLastExaminerEntry st1.transcripts svc.feedbackText,
        examinerFeedback := svc.feedbackText,
        scoreData := svc.scoreData,
        speechQueue := q2 }

/-- The C6 scenario transcript accumulated before the feedback phase. -/
def scenarioPrev : List TranscriptEntry :=
  [{ role := Role.Student, text := "Hello" }, { role := Role.SP, text := "Hi there" }]

/-- The C6 scenario stream: two feedback chunks, then the embedded score
block at stream end. -/
def scenarioChunks : List String :=
  ["Great job. ", "Keep practicing!", "SCORE_JSON_STARTscoreSCORE_JSON_END"]

/-- The C6 scenario run, with speech synthesis always succeeding and score
parsing yielding nothing (irrelevant to the claim). -/
def scenarioResult : FeedbackPhaseResult :=
  triggerFeedbackPhase (fun _ => some "audio") (fun _ => none) scenarioPrev
    (Except.ok scenarioChunks)

/-- Counterexample to C6: the second queued speech segment is
`" Keep practicing!"` — the splitter keeps the whitespace separating
sentences at the front of the following fragment — so the queue is not
`["Great job.", "Keep practicing!"]` as claimed. -/
theorem c6_feedback_scenario_counterexample :
    scenarioResult.speechQueue ≠ ["Great job.", "Keep practicing!"] := by
  decide

/-- C6 (amended): in the scenario, the Examiner placeholder entry (mutated
in place: the transcript grows by exactly the one placeholder entry) ends
holding the full concatenated feedback with the score block removed, and
exactly two speech segments are queued in text order — `"Great job."` and
`" Keep practicing!"`, the second keeping the leading inter-sentence
space. -/
theorem c6_feedback_scenario :
    scenarioResult.transcripts =
        scenarioPrev ++ [{ role := Role.Examiner, text := "Great job. Keep practicing!" }]
    ∧ scenarioResult.examinerFeedback = "Great job. Keep practicing!"
    ∧ scenarioResult.speechQueue = ["Great job.", " Keep practicing!"] := by
  refine ⟨by decide, by decide, by decide⟩

end ExamSim
